import Mathlib

/-!
Shallow embedding of the MovieVerse booking-platform backend
(src/main.py, src/schemas.py): token service, password hashing,
authorization guard, registration and the booking engine, together with
proofs of the spec's claims about them.

Conventions:
* MongoDB collections become Lean lists inside a `Store` record; the
  generated `_id` is modelled by a `next_id` counter.
* `HTTPException(status_code, detail)` becomes `HTTPError`; a handler
  returns `Except HTTPError (result)`, and a handler that writes returns
  the updated `Store` in its success value (an error leaves the caller's
  store untouched, matching request-scoped FastAPI handlers).
* Time is an abstract `Nat` counted in minutes (the unit of
  ACCESS_TOKEN_EXPIRE_MINUTES and of the timedelta in
  create_access_token).
* PyJWT is modelled at the level of its contract: a token is a payload
  together with an HS256 signature, the signature being an injective
  function of the secret and the payload; decoding verifies the
  signature and then the expiry claim, exactly as jwt.decode does.
* passlib's CryptContext(["bcrypt"]) is modelled at the level of its
  documented contract: hashing embeds the salt and parameters in the
  digest, and verify raises (here: returns .error) when the digest
  cannot be identified as a bcrypt hash.
-/

namespace MovieVerse

/-- HTTPException from fastapi: a status code and a detail message. -/
structure HTTPError where
  status : Nat
  detail : String
deriving DecidableEq, Repr

/-- Decoded JWT claims as produced by create_access_token:
{sub, email, role, exp}. -/
structure JwtPayload where
  sub : String
  email : String
  role : String
  exp : Nat
deriving DecidableEq, Repr

/-- A signed token: the claims plus the HS256 signature over them.
Models the output of jwt.encode. -/
structure Token where
  payload : JwtPayload
  sig : String
deriving DecidableEq, Repr

/-- HS256 signature model: an injective function of the shared secret and
the payload (the concatenation keeps components apart with a separator
that the MAC output of the real HMAC would make irrelevant). -/
def jwtSign (secret : String) (p : JwtPayload) : String :=
  "hs256|" ++ secret ++ "|" ++ p.sub ++ "|" ++ p.email ++ "|" ++ p.role
    ++ "|" ++ toString p.exp

/-- jwt.encode: attach the signature to the claims. -/
def jwt_encode (secret : String) (p : JwtPayload) : Token :=
  ⟨p, jwtSign secret p⟩

/-- jwt.decode with algorithms=[HS256]: verify the signature, then the
exp claim against the current time; any failure raises (here: .error),
and the payload is never partially trusted. -/
def jwt_decode (secret : String) (now : Nat) (t : Token) :
    Except String JwtPayload :=
  if t.sig ≠ jwtSign secret t.payload then
    .error "Signature verification failed"
  else if t.payload.exp ≤ now then
    .error "Signature has expired"
  else
    .ok t.payload

/-- ACCESS_TOKEN_EXPIRE_MINUTES = 60 * 24 (main.py line 16). -/
def ACCESS_TOKEN_EXPIRE_MINUTES : Nat := 60 * 24

/-- create_access_token (main.py lines 70-74): copy the {sub, email,
role} data, set exp = now + (expires_delta or the 24h default), sign
with the process secret. -/
def create_access_token (secret : String) (now : Nat)
    (sub email role : String) (expires_delta : Option Nat) : Token :=
  jwt_encode secret ⟨sub, email, role, now + expires_delta.getD ACCESS_TOKEN_EXPIRE_MINUTES⟩

/-- Wire form of a token, so that the Authorization header can carry it
as a string: the claims and signature joined with a separator. -/
def tokenToString (t : Token) : String :=
  t.payload.sub ++ "#" ++ t.payload.email ++ "#" ++ t.payload.role
    ++ "#" ++ toString t.payload.exp ++ "#" ++ t.sig

/-- Split a character list at every occurrence of a separator, keeping
empty pieces (the behavior of Python str.split(sep) and of Lean's
String.splitOn, restated structurally over the character list). -/
def splitOnChar (sep : Char) : List Char → List (List Char)
  | [] => [[]]
  | c :: rest =>
    let r := splitOnChar sep rest
    if c == sep then [] :: r
    else
      match r with
      | [] => [[c]]
      | w :: ws => (c :: w) :: ws

/-- Parse a decimal numeral, the behavior of int() on a digit string. -/
def decDigitsAux : List Char → Nat → Option Nat
  | [], acc => some acc
  | c :: rest, acc =>
    if 48 ≤ c.toNat && c.toNat ≤ 57 then
      decDigitsAux rest (acc * 10 + (c.toNat - 48))
    else none

/-- int()-style parse of a string: all-digit and non-empty, or nothing. -/
def strToNat (s : String) : Option Nat :=
  match s.data with
  | [] => none
  | cs => decDigitsAux cs 0

/-- Parse the wire form back into a token; any string that does not have
the five-part shape is rejected, as jwt.decode rejects a string that is
not a well-formed JWS. -/
def parseToken (s : String) : Option Token :=
  match (splitOnChar '#' s.data).map (fun w => String.mk w) with
  | [sub, email, role, expS, sig] =>
    match strToNat expS with
    | some e => some ⟨⟨sub, email, role, e⟩, sig⟩
    | none => none
  | _ => none

/-- jwt.decode applied to a raw token string. -/
def jwt_decode_str (secret : String) (now : Nat) (s : String) :
    Except String JwtPayload :=
  match parseToken s with
  | none => .error "Not enough segments"
  | some t => jwt_decode secret now t

/-- The whitespace class of Python str.split() with no argument. -/
def isPyWs (c : Char) : Bool :=
  c == ' ' || c == '\t' || c == '\n' || c == '\r' || c == '\x0b' || c == '\x0c'

/-- Group a character list into maximal whitespace-free runs, marking
each whitespace as a break; empty runs are filtered out by the caller. -/
def splitWsRaw (cs : List Char) : List (List Char) :=
  cs.foldr
    (fun c acc =>
      if isPyWs c then [] :: acc
      else
        match acc with
        | [] => [[c]]
        | w :: ws => (c :: w) :: ws)
    []

/-- Python str.split() with no argument: split on runs of whitespace,
discarding empty pieces. -/
def pySplitWs (s : String) : List String :=
  ((splitWsRaw s.data).filter (fun w => w ≠ [])).map (fun w => String.mk w)

/-- Python str.lower() on the ASCII range (token schemes are ASCII). -/
def lowerChar (c : Char) : Char :=
  if 65 ≤ c.toNat && c.toNat ≤ 90 then Char.ofNat (c.toNat + 32) else c

/-- scheme.lower(): lower-case every character. -/
def strToLower (s : String) : String :=
  String.mk (s.data.map lowerChar)

/-- get_current_user (main.py lines 85-95): a falsy (absent or empty)
Authorization header is 401 "Missing Authorization header"; otherwise
the header must split into exactly a scheme and a token with the scheme
"bearer" case-insensitively, and the token must decode — every failure
inside the try block, unpacking errors included, is caught and mapped to
the single 401 "Invalid or expired token". -/
def get_current_user (secret : String) (now : Nat) :
    Option String → Except HTTPError JwtPayload
  | none => .error ⟨401, "Missing Authorization header"⟩
  | some s =>
    if s = "" then .error ⟨401, "Missing Authorization header"⟩
    else
      match pySplitWs s with
      | [scheme, token] =>
        if strToLower scheme = "bearer" then
          match jwt_decode_str secret now token with
          | .ok payload => .ok payload
          | .error _ => .error ⟨401, "Invalid or expired token"⟩
        else .error ⟨401, "Invalid or expired token"⟩
      | _ => .error ⟨401, "Invalid or expired token"⟩

/-- Whether the second character list is the start of the first one. -/
def leadsWith : List Char → List Char → Bool
  | _, [] => true
  | [], _ :: _ => false
  | a :: as, b :: bs => a == b && leadsWith as bs

/-- passlib bcrypt identification: a digest is recognized when it opens
with one of the bcrypt identifiers; anything else makes CryptContext
raise UnknownHashError ("hash could not be identified"). -/
def bcryptIdentify (digest : String) : Bool :=
  leadsWith digest.data "$2a$".data || leadsWith digest.data "$2b$".data
    || leadsWith digest.data "$2y$".data || leadsWith digest.data "$2x$".data

/-- pwd_context.hash for the bcrypt scheme: a salted one-way digest
whose salt and parameters are embedded in the digest itself (the
modelled digest records the salt and, standing in for the bcrypt key
derivation, the password). -/
def get_password_hash (salt : String) (password : String) : String :=
  "$2b$12$" ++ salt ++ "$" ++ password

/-- pwd_context.verify: identify the hash scheme from the digest; an
unidentifiable digest raises UnknownHashError (modelled as .error),
otherwise compare the password under the embedded salt/parameters. -/
def pwd_context_verify (plain : String) (hashed : String) :
    Except String Bool :=
  if bcryptIdentify hashed then
    .ok ((((splitOnChar '$' hashed.data).map (fun w => String.mk w)).getD 4 "")
      == plain)
  else
    .error "hash could not be identified"

/-- verify_password (main.py lines 77-78): delegates to
pwd_context.verify; exceptions propagate to the caller. -/
def verify_password (plain : String) (hashed : String) :
    Except String Bool :=
  pwd_context_verify plain hashed

/-- A document of the user collection (schemas.py lines 12-17) together
with its MongoDB-generated _id. -/
structure UserDoc where
  oid : Nat
  name : String
  email : String
  password_hash : String
  role : String
  is_active : Bool
deriving DecidableEq, Repr

/-- A document of the booking collection (schemas.py lines 48-54); the
generated _id is not needed by any claim, so bookings are stored bare.
Monetary amounts are only carried through, never computed on, so they
are abstracted to Int. -/
structure Booking where
  user_id : String
  show_id : String
  seats : List String
  amount : Int
  payment_status : String
  payment_provider : Option String
deriving DecidableEq, Repr

/-- A document of the theatre collection (schemas.py lines 36-39). -/
structure Theatre where
  name : String
  city : String
  address : Option String
deriving DecidableEq, Repr

/-- A document of the show collection (schemas.py lines 41-46);
show_time and price are carried through opaquely as Int. -/
structure Show where
  theatre_id : String
  movie_id : Int
  show_time : Int
  price : Int
  seats_total : Int
deriving DecidableEq, Repr

/-- The document store: one list per collection the claims touch, plus
the counter modelling MongoDB _id generation. -/
structure Store where
  users : List UserDoc
  bookings : List Booking
  theatres : List Theatre
  shows : List Show
  next_id : Nat
deriving DecidableEq, Repr

/-- AuthPayload (main.py lines 31-34). -/
structure AuthPayload where
  email : String
  password : String
  name : Option String
deriving DecidableEq, Repr

/-- TheatrePayload (main.py lines 48-51). -/
structure TheatrePayload where
  name : String
  city : String
  address : Option String
deriving DecidableEq, Repr

/-- ShowPayload (main.py lines 54-59). -/
structure ShowPayload where
  theatre_id : String
  movie_id : Int
  show_time : Int
  price : Int
  seats_total : Int
deriving DecidableEq, Repr

/-- BookingPayload (main.py lines 62-65). -/
structure BookingPayload where
  show_id : String
  seats : List String
  amount : Int
deriving DecidableEq, Repr

/-- payload.email.split("@")[0]: the part of the email before the first
"@" (the whole string when no "@" occurs). -/
def emailLocalPart (email : String) : String :=
  String.mk (email.data.takeWhile (fun c => c != '@'))

/-- Python truthiness of `payload.name or fallback`: None and the empty
string both fall through to the fallback. -/
def pyNameOr (name : Option String) (fallback : String) : String :=
  match name with
  | some n => if n = "" then fallback else n
  | none => fallback

/-- register (main.py lines 104-123): reject a taken email with 400
"Email already registered"; otherwise insert a User with the defaulted
name, the bcrypt digest, role "user", and return a token whose sub is
the stringified new _id. The salt of the freshly drawn bcrypt salt is a
parameter, as is the current time. -/
def register (secret : String) (salt : String) (now : Nat)
    (st : Store) (payload : AuthPayload) :
    Except HTTPError (Store × Token) :=
  match st.users.find? (fun u => u.email == payload.email) with
  | some _ => .error ⟨400, "Email already registered"⟩
  | none =>
    let user_id := st.next_id
    let doc : UserDoc :=
      { oid := user_id
        name := pyNameOr payload.name (emailLocalPart payload.email)
        email := payload.email
        password_hash := get_password_hash salt payload.password
        role := "user"
        is_active := true }
    let st2 := { st with users := st.users ++ [doc], next_id := st.next_id + 1 }
    let token := create_access_token secret now (toString user_id) payload.email "user" none
    .ok (st2, token)

/-- create_theatre (main.py lines 160-166): 403 "Admin only" unless the
principal's role is "admin"; otherwise insert the theatre and return
its id. -/
def create_theatre (st : Store) (user : JwtPayload)
    (payload : TheatrePayload) : Except HTTPError (Store × Nat) :=
  if user.role ≠ "admin" then .error ⟨403, "Admin only"⟩
  else
    let t : Theatre := ⟨payload.name, payload.city, payload.address⟩
    .ok ({ st with theatres := st.theatres ++ [t], next_id := st.next_id + 1 },
         st.next_id)

/-- create_show (main.py lines 178-184): 403 "Admin only" unless the
principal's role is "admin"; otherwise insert the show and return its
id. -/
def create_show (st : Store) (user : JwtPayload)
    (payload : ShowPayload) : Except HTTPError (Store × Nat) :=
  if user.role ≠ "admin" then .error ⟨403, "Admin only"⟩
  else
    let s : Show := ⟨payload.theatre_id, payload.movie_id,
                     payload.show_time, payload.price, payload.seats_total⟩
    .ok ({ st with shows := st.shows ++ [s], next_id := st.next_id + 1 },
         st.next_id)

/-- The filter of db["booking"].find_one({"show_id": payload.show_id,
"seats": {"$in": payload.seats}}): the booking is for this show and its
seats array shares at least one element with the requested seats
(MongoDB $in on an array field matches when any array element occurs in
the given list), with no condition on payment_status. -/
def bookingConflictsWith (show_id : String) (seats : List String)
    (b : Booking) : Bool :=
  b.show_id == show_id && b.seats.any (fun s => seats.contains s)

/-- create_booking (main.py lines 201-209): find_one for a booking of
the same show with an overlapping seat; if one exists fail 400 "Some
seats already booked", otherwise insert a Booking with payment_status
"pending" (the schema default) and return its id. There is no
validation of the seats list (emptiness or duplicates) and no check on
amount. -/
def create_booking (st : Store) (user : JwtPayload)
    (payload : BookingPayload) : Except HTTPError (Store × Nat) :=
  match st.bookings.find? (bookingConflictsWith payload.show_id payload.seats) with
  | some _ => .error ⟨400, "Some seats already booked"⟩
  | none =>
    let b : Booking :=
      { user_id := user.sub
        show_id := payload.show_id
        seats := payload.seats
        amount := payload.amount
        payment_status := "pending"
        payment_provider := none }
    .ok ({ st with bookings := st.bookings ++ [b], next_id := st.next_id + 1 },
         st.next_id)

/-- The store a caller observes after a create_booking call: the updated
store on success, the unchanged store on failure (a raised
HTTPException commits nothing). -/
def bookingOutcome (st : Store) (user : JwtPayload)
    (payload : BookingPayload) : Store :=
  match create_booking st user payload with
  | .ok (st2, _) => st2
  | .error _ => st

/-- The seats held for a show across its non-cancelled bookings, in
store order (all bookings the code ever writes are non-cancelled, but
the invariant is stated over any store). -/
def activeSeats (show_id : String) (bs : List Booking) : List String :=
  ((bs.filter (fun b => b.show_id == show_id
      && b.payment_status != "cancelled")).map (fun b => b.seats)).flatten

/-- The no-double-booking invariant: for every show, the union of seats
across non-cancelled bookings contains no duplicates. -/
def noDoubleBooking (bs : List Booking) : Prop :=
  ∀ show_id : String, (activeSeats show_id bs).Nodup

/-- Whether some existing booking for the show shares a seat with the
request (the existence form of the conflict query). -/
def hasConflict (st : Store) (payload : BookingPayload) : Bool :=
  st.bookings.any (bookingConflictsWith payload.show_id payload.seats)

/-- Executable substring test, to state whether an error message names a
seat label. -/
def strContains (hay needle : String) : Bool :=
  (List.range (hay.data.length + 1)).any
    (fun i => ((hay.data.drop i).take needle.data.length) == needle.data)

/-- The malformed-header condition of the spec's Authorization Guard:
the header does not split into exactly a scheme and a token, or the
scheme is not bearer (case-insensitively). -/
def malformedAuthHeader (s : String) : Bool :=
  match pySplitWs s with
  | [scheme, _] => strToLower scheme != "bearer"
  | _ => true

lemma find?_isSome_iff_any {α : Type} (q : α → Bool) (l : List α) :
    (l.find? q).isSome = l.any q := by
  induction l with
  | nil => rfl
  | cons a tl ih =>
    by_cases h : q a = true
    · simp [List.find?, List.any, h]
    · simp only [Bool.not_eq_true] at h
      simp [List.find?, List.any, h, ih]

/-- create_booking, written as an equation on the conflict test: the
call fails with 400 "Some seats already booked" exactly when some
existing booking for the show shares a seat with the request, and
otherwise appends a pending booking for the requesting user. -/
lemma create_booking_eq (st : Store) (user : JwtPayload)
    (p : BookingPayload) :
    create_booking st user p =
      if hasConflict st p then
        .error ⟨400, "Some seats already booked"⟩
      else
        .ok ({ st with
                bookings := st.bookings ++
                  [⟨user.sub, p.show_id, p.seats, p.amount, "pending", none⟩],
                next_id := st.next_id + 1 },
             st.next_id) := by
  unfold create_booking hasConflict
  cases hfind : st.bookings.find? (bookingConflictsWith p.show_id p.seats) with
  | none =>
    have hany : st.bookings.any (bookingConflictsWith p.show_id p.seats) = false := by
      rw [← find?_isSome_iff_any, hfind]
      rfl
    rw [hany]
    rfl
  | some b =>
    have hany : st.bookings.any (bookingConflictsWith p.show_id p.seats) = true := by
      rw [← find?_isSome_iff_any, hfind]
      rfl
    rw [hany]
    rfl

lemma mem_activeSeats {s sid : String} {bs : List Booking} :
    s ∈ activeSeats sid bs ↔
      ∃ b ∈ bs, b.show_id = sid ∧ b.payment_status ≠ "cancelled" ∧ s ∈ b.seats := by
  simp only [activeSeats, List.mem_flatten, List.mem_map, List.mem_filter]
  constructor
  · rintro ⟨l, ⟨b, ⟨hb, hcond⟩, rfl⟩, hs⟩
    simp only [Bool.and_eq_true, beq_iff_eq, bne_iff_ne, ne_eq] at hcond
    exact ⟨b, hb, hcond.1, hcond.2, hs⟩
  · rintro ⟨b, hb, h1, h2, hs⟩
    refine ⟨b.seats, ⟨b, ⟨hb, ?_⟩, rfl⟩, hs⟩
    simp only [Bool.and_eq_true, beq_iff_eq, bne_iff_ne, ne_eq]
    exact ⟨h1, h2⟩

lemma activeSeats_append (sid : String) (l1 l2 : List Booking) :
    activeSeats sid (l1 ++ l2) = activeSeats sid l1 ++ activeSeats sid l2 := by
  simp [activeSeats, List.filter_append, List.map_append, List.flatten_append]

/-- C4: verifying a token produced by create_access_token with the same
secret, at any time strictly before the token's expiry, succeeds and
returns exactly the original subject, email and role. -/
theorem token_round_trip (secret sub email role : String) (now t : Nat)
    (h : t < now + ACCESS_TOKEN_EXPIRE_MINUTES) :
    jwt_decode secret t (create_access_token secret now sub email role none) =
      .ok ⟨sub, email, role, now + ACCESS_TOKEN_EXPIRE_MINUTES⟩ := by
  simp only [create_access_token, jwt_encode, jwt_decode, Option.getD]
  rw [if_neg (by simp), if_neg (by simp; omega)]

theorem token_round_trip_witness :
    jwt_decode "devsecret" 5
        (create_access_token "devsecret" 0 "7" "alice@example.com" "user" none) =
      .ok ⟨"7", "alice@example.com", "user", 0 + ACCESS_TOKEN_EXPIRE_MINUTES⟩ :=
  token_round_trip "devsecret" "7" "alice@example.com" "user" 0 5 (by decide)

/-- C5: a token whose exp claim lies in the past is rejected by
jwt.decode even when its signature is valid under the configured
secret; get_current_user surfaces every such decode failure as 401
"Invalid or expired token". -/
theorem expired_token_rejected (secret : String) (now : Nat) (t : Token)
    (hsig : t.sig = jwtSign secret t.payload)
    (hexp : t.payload.exp < now) :
    jwt_decode secret now t = .error "Signature has expired" := by
  simp only [jwt_decode, hsig]
  rw [if_neg (by simp), if_pos (by omega)]

theorem expired_token_rejected_witness :
    jwt_decode "devsecret" 99999
        (create_access_token "devsecret" 0 "7" "alice@example.com" "user" none) =
      .error "Signature has expired" :=
  expired_token_rejected "devsecret" 99999
    (create_access_token "devsecret" 0 "7" "alice@example.com" "user" none)
    rfl (by decide)

/-- C6 counterexample: a present header with a non-Bearer scheme yields
exactly the same 401 "Invalid or expired token" error as a well-formed
Bearer header carrying an undecodable token — there is no distinct
MalformedCredentials failure in get_current_user. -/
theorem malformed_header_error_not_distinct :
    get_current_user "devsecret" 0 (some "Basic abc") =
        Except.error ⟨401, "Invalid or expired token"⟩ ∧
    get_current_user "devsecret" 0 (some "Bearer abc") =
        Except.error ⟨401, "Invalid or expired token"⟩ := by
  exact ⟨rfl, rfl⟩

/-- C6 as amended: an absent header fails with 401 "Missing
Authorization header", and a present non-empty header that is malformed
(wrong part count, or a scheme other than case-insensitive bearer)
fails with 401 "Invalid or expired token" — the same error that an
invalid token produces, not a distinct MalformedCredentials. -/
theorem guard_error_taxonomy (secret : String) (now : Nat) (s : String)
    (hne : s ≠ "") (hmal : malformedAuthHeader s = true) :
    get_current_user secret now none =
        .error ⟨401, "Missing Authorization header"⟩ ∧
    get_current_user secret now (some s) =
        .error ⟨401, "Invalid or expired token"⟩ := by
  refine ⟨rfl, ?_⟩
  unfold malformedAuthHeader at hmal
  simp only [get_current_user]
  rw [if_neg hne]
  cases hps : pySplitWs s with
  | nil => simp only [hps]
  | cons a tl =>
    cases tl with
    | nil => simp only [hps]
    | cons b tl2 =>
      cases tl2 with
      | nil =>
        rw [hps] at hmal
        have hb : strToLower a ≠ "bearer" := by simpa using hmal
        simp only [hps]
        rw [if_neg hb]
      | cons c tl3 => simp only [hps]

theorem guard_error_taxonomy_witness :
    get_current_user "devsecret" 0 none =
        Except.error ⟨401, "Missing Authorization header"⟩ ∧
    get_current_user "devsecret" 0 (some "Basic abc") =
        Except.error ⟨401, "Invalid or expired token"⟩ :=
  guard_error_taxonomy "devsecret" 0 "Basic abc" (by decide) (by decide)

/-- C7: when the authenticated principal's role is not "admin", both
create_theatre and create_show fail with 403 "Admin only"; the error
result carries no updated store, so no record is inserted. -/
theorem non_admin_forbidden (st : Store) (user : JwtPayload)
    (tp : TheatrePayload) (sp : ShowPayload)
    (h : user.role ≠ "admin") :
    create_theatre st user tp = .error ⟨403, "Admin only"⟩ ∧
    create_show st user sp = .error ⟨403, "Admin only"⟩ := by
  unfold create_theatre create_show
  rw [if_pos h, if_pos h]
  exact ⟨rfl, rfl⟩

theorem non_admin_forbidden_witness :
    create_theatre ⟨[], [], [], [], 0⟩ ⟨"7", "alice@example.com", "user", 99⟩
        ⟨"Roxy", "Paris", none⟩ = Except.error ⟨403, "Admin only"⟩ ∧
    create_show ⟨[], [], [], [], 0⟩ ⟨"7", "alice@example.com", "user", 99⟩
        ⟨"t1", 5, 0, 12, 80⟩ = Except.error ⟨403, "Admin only"⟩ :=
  non_admin_forbidden ⟨[], [], [], [], 0⟩ ⟨"7", "alice@example.com", "user", 99⟩
    ⟨"Roxy", "Paris", none⟩ ⟨"t1", 5, 0, 12, 80⟩ (by decide)

/-- C8 counterexample: on the malformed digest "" (not identifiable as
a bcrypt hash), verify_password raises the UnknownHashError of the
underlying CryptContext instead of returning false. -/
theorem verify_password_raises_on_malformed :
    verify_password "password" "" =
      Except.error "hash could not be identified" := rfl

/-- C8 as amended: verify_password never returns false on a malformed
digest — it raises; on a digest that is identifiable as a bcrypt hash
it returns a boolean without raising. -/
theorem verify_password_behavior (plain digest : String) :
    (bcryptIdentify digest = false →
      verify_password plain digest =
        .error "hash could not be identified") ∧
    (bcryptIdentify digest = true →
      ∃ b : Bool, verify_password plain digest = .ok b) := by
  unfold verify_password pwd_context_verify
  constructor
  · intro h
    rw [if_neg (by simp [h])]
  · intro h
    exact ⟨_, by rw [if_pos h]⟩

theorem verify_password_behavior_witness :
    verify_password "pw" "" = Except.error "hash could not be identified" ∧
    ∃ b : Bool, verify_password "pw" (get_password_hash "somesalt" "pw") =
      Except.ok b :=
  ⟨(verify_password_behavior "pw" "").1 rfl,
   (verify_password_behavior "pw" (get_password_hash "somesalt" "pw")).2 rfl⟩

/-- C10: when the optional name field is absent, register creates the
user with name equal to the part of the email before the first "@". -/
theorem register_default_name (secret salt : String) (now : Nat)
    (st : Store) (p : AuthPayload)
    (hname : p.name = none)
    (hfree : st.users.find? (fun u => u.email == p.email) = none) :
    register secret salt now st p =
      .ok ({ st with
              users := st.users ++
                [{ oid := st.next_id
                   name := emailLocalPart p.email
                   email := p.email
                   password_hash := get_password_hash salt p.password
                   role := "user"
                   is_active := true }]
              next_id := st.next_id + 1 },
           create_access_token secret now (toString st.next_id) p.email "user" none) := by
  unfold register
  rw [hfree]
  simp [pyNameOr, hname]

lemma hasConflict_iff (st : Store) (p : BookingPayload) :
    hasConflict st p = true ↔
      ∃ b ∈ st.bookings, b.show_id = p.show_id ∧ ∃ s ∈ b.seats, s ∈ p.seats := by
  simp [hasConflict, bookingConflictsWith, List.any_eq_true]

/-- C1: starting from any store satisfying the no-double-booking
invariant, one sequential create_booking call with a non-empty list of
distinct seat labels leaves the invariant true for every show, whether
the call succeeds or fails. -/
theorem create_booking_preserves_no_double_booking
    (st : Store) (user : JwtPayload) (p : BookingPayload)
    (hinv : noDoubleBooking st.bookings)
    (_hne : p.seats ≠ []) (hnd : p.seats.Nodup) :
    noDoubleBooking (bookingOutcome st user p).bookings := by
  unfold bookingOutcome
  rw [create_booking_eq]
  by_cases hc : hasConflict st p = true
  · rw [if_pos hc]
    exact hinv
  · rw [if_neg hc]
    intro sid
    show (activeSeats sid (st.bookings ++
      [⟨user.sub, p.show_id, p.seats, p.amount, "pending", none⟩])).Nodup
    rw [activeSeats_append]
    have hc' : hasConflict st p = false := by
      simpa using hc
    have hnoc : ∀ b ∈ st.bookings,
        ¬ bookingConflictsWith p.show_id p.seats b = true :=
      List.any_eq_false.mp (by simpa [hasConflict] using hc')
    by_cases hsid : p.show_id = sid
    · have hone : activeSeats sid
          [⟨user.sub, p.show_id, p.seats, p.amount, "pending", none⟩] = p.seats := by
        simp [activeSeats, hsid]
      rw [hone, List.nodup_append]
      refine ⟨hinv sid, hnd, ?_⟩
      intro x hx1 hx2
      rcases mem_activeSeats.mp hx1 with ⟨b, hbmem, hbsid, _, hbseat⟩
      have hfalse := hnoc b hbmem
      simp only [bookingConflictsWith, hbsid, hsid, beq_self_eq_true,
        Bool.true_and, List.any_eq_true, not_exists] at hfalse
      have := hfalse x
      simp [hbseat] at this
      exact this hx2
    · have hone : activeSeats sid
          [⟨user.sub, p.show_id, p.seats, p.amount, "pending", none⟩] = [] := by
        simp [activeSeats, hsid]
      rw [hone, List.append_nil]
      exact hinv sid

theorem create_booking_preserves_no_double_booking_witness :
    noDoubleBooking (bookingOutcome ⟨[], [], [], [], 0⟩
      ⟨"7", "alice@example.com", "user", 99⟩ ⟨"s1", ["A1", "A2"], 10⟩).bookings :=
  create_booking_preserves_no_double_booking ⟨[], [], [], [], 0⟩
    ⟨"7", "alice@example.com", "user", 99⟩ ⟨"s1", ["A1", "A2"], 10⟩
    (fun sid => by simp [activeSeats]) (by decide) (by decide)

/-- C2 counterexample: with an existing booking holding seats A1 and A2
for show s1, a request for A2 and A3 fails, but the failure message is
the fixed string "Some seats already booked", which does not name the
contested seat A2 (nor A3) — the error names no contested seat. -/
theorem conflict_error_names_no_seat :
    create_booking ⟨[], [⟨"9", "s1", ["A1", "A2"], 20, "pending", none⟩], [], [], 1⟩
        ⟨"7", "alice@example.com", "user", 99⟩ ⟨"s1", ["A2", "A3"], 10⟩ =
      Except.error ⟨400, "Some seats already booked"⟩ ∧
    strContains "Some seats already booked" "A2" = false ∧
    strContains "Some seats already booked" "A3" = false :=
  ⟨rfl, by decide, by decide⟩

/-- C2 as amended: create_booking fails — with 400 and the fixed
message "Some seats already booked", which names no seat — exactly when
some existing booking for the show (any payment_status) shares a seat
with the request, and on failure the store is unchanged, so no booking
record is created. -/
theorem create_booking_conflict_iff (st : Store) (user : JwtPayload)
    (p : BookingPayload) :
    (create_booking st user p = .error ⟨400, "Some seats already booked"⟩ ↔
      ∃ b ∈ st.bookings, b.show_id = p.show_id ∧ ∃ s ∈ b.seats, s ∈ p.seats) ∧
    (hasConflict st p = true → bookingOutcome st user p = st) := by
  by_cases hc : hasConflict st p = true
  · refine ⟨?_, ?_⟩
    · rw [create_booking_eq, if_pos hc]
      simp [(hasConflict_iff st p).mp hc]
    · intro _
      unfold bookingOutcome
      rw [create_booking_eq, if_pos hc]
  · refine ⟨?_, fun habs => absurd habs hc⟩
    have hnc : ¬ ∃ b ∈ st.bookings, b.show_id = p.show_id ∧ ∃ s ∈ b.seats, s ∈ p.seats :=
      fun hex => hc ((hasConflict_iff st p).mpr hex)
    rw [create_booking_eq, if_neg hc]
    simp [hnc]

theorem create_booking_conflict_iff_witness :
    bookingOutcome ⟨[], [⟨"9", "s1", ["A1"], 20, "pending", none⟩], [], [], 1⟩
        ⟨"7", "alice@example.com", "user", 99⟩ ⟨"s1", ["A1"], 10⟩ =
      ⟨[], [⟨"9", "s1", ["A1"], 20, "pending", none⟩], [], [], 1⟩ :=
  (create_booking_conflict_iff ⟨[], [⟨"9", "s1", ["A1"], 20, "pending", none⟩], [], [], 1⟩
    ⟨"7", "alice@example.com", "user", 99⟩ ⟨"s1", ["A1"], 10⟩).2 (by decide)

/-- C3 counterexample: on an empty store, create_booking with an empty
seats list does not fail with any InvalidRequest error — it succeeds
and inserts a booking record whose seats list is empty. -/
theorem empty_seats_counterexample :
    create_booking ⟨[], [], [], [], 0⟩ ⟨"7", "alice@example.com", "user", 99⟩
        ⟨"s1", [], 10⟩ =
      Except.ok (⟨[], [⟨"7", "s1", [], 10, "pending", none⟩], [], [], 1⟩, 0) := rfl

/-- C3 as amended: create_booking performs no emptiness validation; an
empty seats list can never intersect an existing booking, so the call
always succeeds and inserts a pending booking with an empty seats
list. -/
theorem empty_seats_booking_accepted (st : Store) (user : JwtPayload)
    (sid : String) (amt : Int) :
    create_booking st user ⟨sid, [], amt⟩ =
      Except.ok ({ st with
          bookings := st.bookings ++ [⟨user.sub, sid, [], amt, "pending", none⟩],
          next_id := st.next_id + 1 }, st.next_id) := by
  rw [create_booking_eq]
  have hc : hasConflict st ⟨sid, [], amt⟩ = false := by
    simp [hasConflict, bookingConflictsWith]
  rw [hc]
  rfl

lemma register_email_taken (secret salt : String) (now : Nat) (st : Store)
    (p : AuthPayload) (h : ∃ u ∈ st.users, u.email = p.email) :
    register secret salt now st p = .error ⟨400, "Email already registered"⟩ := by
  unfold register
  cases hfind : st.users.find? (fun u => u.email == p.email) with
  | some u => rfl
  | none =>
    exfalso
    rcases h with ⟨u, hu, he⟩
    have := List.find?_eq_none.mp hfind u hu
    simp [he] at this

lemma register_ok_users (secret salt : String) (now : Nat) (st st2 : Store)
    (tok : Token) (p : AuthPayload)
    (hreg : register secret salt now st p = .ok (st2, tok)) :
    ∃ u ∈ st2.users, u.email = p.email := by
  unfold register at hreg
  cases hfind : st.users.find? (fun u => u.email == p.email) with
  | some u => rw [hfind] at hreg; exact absurd hreg (by simp)
  | none =>
    rw [hfind] at hreg
    simp only [Except.ok.injEq, Prod.mk.injEq] at hreg
    obtain ⟨h1, _⟩ := hreg
    subst h1
    refine ⟨{ oid := st.next_id
              name := pyNameOr p.name (emailLocalPart p.email)
              email := p.email
              password_hash := get_password_hash salt p.password
              role := "user"
              is_active := true }, ?_, rfl⟩
    simp

/-- C9: after register succeeds for an email, a second register call
with the same email — whatever its password, salt or time — fails with
400 "Email already registered"; the error result carries no updated
store, so no second user record is created. -/
theorem duplicate_email_rejected (secret1 secret2 salt1 salt2 : String)
    (now1 now2 : Nat) (st st2 : Store) (tok : Token) (p1 p2 : AuthPayload)
    (hemail : p2.email = p1.email)
    (hreg : register secret1 salt1 now1 st p1 = .ok (st2, tok)) :
    register secret2 salt2 now2 st2 p2 =
      .error ⟨400, "Email already registered"⟩ := by
  apply register_email_taken
  rcases register_ok_users secret1 salt1 now1 st st2 tok p1 hreg with ⟨u, hu, he⟩
  exact ⟨u, hu, by rw [hemail]; exact he⟩

theorem duplicate_email_rejected_witness :
    register "othersecret" "othersalt" 42
        ⟨[⟨0, "alice", "alice@example.com", get_password_hash "somesalt" "pw",
           "user", true⟩], [], [], [], 1⟩
        ⟨"alice@example.com", "differentpw", some "Alice B"⟩ =
      Except.error ⟨400, "Email already registered"⟩ :=
  duplicate_email_rejected "devsecret" "othersecret" "somesalt" "othersalt" 0 42
    ⟨[], [], [], [], 0⟩
    ⟨[⟨0, "alice", "alice@example.com", get_password_hash "somesalt" "pw",
       "user", true⟩], [], [], [], 1⟩
    (create_access_token "devsecret" 0 (toString 0) "alice@example.com" "user" none)
    ⟨"alice@example.com", "pw", none⟩
    ⟨"alice@example.com", "differentpw", some "Alice B"⟩
    rfl rfl

theorem register_default_name_witness :
    register "devsecret" "somesalt" 0 ⟨[], [], [], [], 0⟩
        ⟨"alice@example.com", "pw", none⟩ =
      Except.ok (⟨[⟨0, "alice", "alice@example.com",
                    get_password_hash "somesalt" "pw", "user", true⟩],
                  [], [], [], 1⟩,
        create_access_token "devsecret" 0 "0" "alice@example.com" "user" none) :=
  register_default_name "devsecret" "somesalt" 0 ⟨[], [], [], [], 0⟩
    ⟨"alice@example.com", "pw", none⟩ rfl rfl

end MovieVerse
